import Mathlib

/-!
Shallow embedding of the invoice backend (src/main.py, src/schemas.py).

Numbers: Python `int` is modelled as `ℤ` and Python `float` as `ℚ`
(the derived-field arithmetic in this service is exact decimal work at
two decimal places, so the rational model matches the float behaviour on
the values the spec discusses).  Python's builtin `round` performs
round-half-to-even, modelled by `roundHalfEven`.

The Mongo collection `db["invoice"]` is modelled as an association list
from the `_id` string key to the stored document.  The five store
operations used by the handlers (`find_one`, `insert_one`, `update_one`
with `$set`, `delete_one`, and listing) are modelled directly.

Each HTTP handler becomes a function from the store (plus its inputs) to
a result together with the post-state of the store; raising an
`HTTPException` before any write is modelled by returning the error with
the store unchanged, which is exactly what the Python code does.
-/

namespace InvoiceBackend

/-- Python's builtin `round` to the nearest integer, ties to even
(banker's rounding), on an exact rational value. -/
def roundHalfEven (q : ℚ) : ℤ :=
  let f := ⌊q⌋
  if q - f < 1/2 then f
  else if q - f > 1/2 then f + 1
  else if f % 2 = 0 then f else f + 1

/-- Python `round(x, 2)`: round to two decimal places, ties to even. -/
def round2 (q : ℚ) : ℚ := (roundHalfEven (q * 100) : ℚ) / 100

/-- `compute_tax_and_total` from src/main.py lines 93-97:
`subtotal = quantity * price`, `tax = round(subtotal * (tax_rate/100.0), 2)`,
`total = round(subtotal + tax, 2)`. -/
def compute_tax_and_total (quantity : ℤ) (price tax_rate_percent : ℚ) : ℚ × ℚ :=
  let subtotal : ℚ := (quantity : ℚ) * price
  let tax := round2 (subtotal * (tax_rate_percent / 100))
  let total := round2 (subtotal + tax)
  (tax, total)

/-- A document of the `invoice` collection.  Every document the handlers
write has exactly these fields (the `Invoice` schema of src/schemas.py
plus the `updated_at` stamp that `update_invoice` adds); `updated_at` is
absent on freshly created documents.  The `_id` key is kept outside the
document, as the key position of the association list. -/
structure InvoiceDoc where
  invoice_no : String
  customer : String
  item_name : String
  surat_jalan_no : String
  quantity : ℤ
  price : ℚ
  tax_rate : ℚ
  tax : ℚ
  total : ℚ
  updated_at : Option ℕ
deriving Repr, DecidableEq

/-- The `invoice` collection: association list from `_id` to document. -/
abbrev Store := List (String × InvoiceDoc)

/-- `db["invoice"].find_one({"_id": k})`. -/
def find_one (s : Store) (k : String) : Option InvoiceDoc :=
  (s.find? (fun p => p.1 = k)).map (fun p => p.2)

/-- `db["invoice"].insert_one` of a document with `_id = k`; the callers
check for key collision themselves (create via the E11000 duplicate-key
error, rekey via an explicit `find_one`), so the model inserts
unconditionally and the handlers guard it. -/
def insert_one (s : Store) (k : String) (d : InvoiceDoc) : Store :=
  s ++ [(k, d)]

/-- `db["invoice"].delete_one({"_id": k})` (at most one document has a
given `_id`, so filtering the key out is exact). -/
def delete_one (s : Store) (k : String) : Store :=
  s.filter (fun p => p.1 ≠ k)

/-- `db["invoice"].update_one({"_id": k}, {"$set": ...})`: replaces the
document at `k` by the merged document `d` (the handler computes the
merge of the `$set` payload over the existing document). -/
def update_one (s : Store) (k : String) (d : InvoiceDoc) : Store :=
  s.map (fun p => if p.1 = k then (k, d) else p)

/-- The serialized (JSON) view of a document, after `serialize_doc`.
`id` is the `"id"` entry when present and `raw_id` is the `"_id"` entry
when it was left in place; the remaining entries are the document's
fields. -/
structure SerializedInvoice where
  id : Option String
  raw_id : Option String
  invoice_no : String
  customer : String
  item_name : String
  surat_jalan_no : String
  quantity : ℤ
  price : ℚ
  tax_rate : ℚ
  tax : ℚ
  total : ℚ
  updated_at : Option ℕ
deriving Repr, DecidableEq

/-- `serialize_doc` from src/main.py lines 65-70, on a present document
(the handlers only call it on documents they just fetched or built, so
the falsy-`doc` guard never fires for them).  `doc.get("_id")` is the
string key `k`; a string is truthy exactly when it is nonempty, so the
`_id → id` move happens only for a nonempty key, and an empty-string key
is left as a raw `_id` entry with no `id` added. -/
def serialize_doc (k : String) (d : InvoiceDoc) : SerializedInvoice :=
  if k = "" then
    { id := none, raw_id := some k
      invoice_no := d.invoice_no, customer := d.customer
      item_name := d.item_name, surat_jalan_no := d.surat_jalan_no
      quantity := d.quantity, price := d.price, tax_rate := d.tax_rate
      tax := d.tax, total := d.total, updated_at := d.updated_at }
  else
    { id := some k, raw_id := none
      invoice_no := d.invoice_no, customer := d.customer
      item_name := d.item_name, surat_jalan_no := d.surat_jalan_no
      quantity := d.quantity, price := d.price, tax_rate := d.tax_rate
      tax := d.tax, total := d.total, updated_at := d.updated_at }

/-- The `InvoiceCreate` request model of src/main.py lines 73-80: every
field is declared without a default, so every field is required. -/
structure InvoiceCreate where
  invoice_no : String
  customer : String
  item_name : String
  surat_jalan_no : String
  quantity : ℤ
  price : ℚ
  tax_rate : ℚ
deriving Repr, DecidableEq

/-- A raw create request body: which of the `InvoiceCreate` fields the
client supplied, each with its value when supplied. -/
structure InvoiceCreateRequest where
  invoice_no : Option String
  customer : Option String
  item_name : Option String
  surat_jalan_no : Option String
  quantity : Option ℤ
  price : Option ℚ
  tax_rate : Option ℚ
deriving Repr, DecidableEq

/-- Request-body validation against `InvoiceCreate`: since every field
of the model is declared without a default, validation succeeds exactly
when every field is present in the body. -/
def parseInvoiceCreate (r : InvoiceCreateRequest) : Option InvoiceCreate :=
  match r.invoice_no, r.customer, r.item_name, r.surat_jalan_no,
      r.quantity, r.price, r.tax_rate with
  | some a, some c, some i, some sj, some q, some p, some t =>
    some { invoice_no := a, customer := c, item_name := i, surat_jalan_no := sj
           quantity := q, price := p, tax_rate := t }
  | _, _, _, _, _, _, _ => none

/-- The `InvoiceUpdate` request model of src/main.py lines 82-90: every
field optional; `none` models a field absent from the request body
(`model_dump(exclude_unset=True)` drops it). -/
structure InvoiceUpdate where
  invoice_no : Option String := none
  customer : Option String := none
  item_name : Option String := none
  surat_jalan_no : Option String := none
  quantity : Option ℤ := none
  price : Option ℚ := none
  tax_rate : Option ℚ := none
deriving Repr, DecidableEq

/-- The error outcomes of the handlers: HTTP 404, 409, and the pydantic
validation failure raised when `Invoice(...)` is constructed from values
violating its `ge=0` bounds (surfaced as a 500). -/
inductive ApiError where
  | NotFound
  | Conflict
  | ValidationError
deriving Repr, DecidableEq

/-- `create_invoice` (src/main.py lines 99-128).  Computes the derived
fields, builds the `Invoice` schema value (whose `ge=0` bounds on
`quantity`, `price`, `tax_rate`, `tax`, `total` make construction fail
on negative values), inserts under `_id = invoice_no` (the duplicate-key
error E11000 becomes a 409 Conflict), and returns the serialized
just-inserted document. -/
def create_invoice (s : Store) (payload : InvoiceCreate) :
    Except ApiError SerializedInvoice × Store :=
  let tt := compute_tax_and_total payload.quantity payload.price payload.tax_rate
  if payload.quantity < 0 ∨ payload.price < 0 ∨ payload.tax_rate < 0 ∨
      tt.1 < 0 ∨ tt.2 < 0 then
    (.error .ValidationError, s)
  else
    let d : InvoiceDoc :=
      { invoice_no := payload.invoice_no, customer := payload.customer
        item_name := payload.item_name, surat_jalan_no := payload.surat_jalan_no
        quantity := payload.quantity, price := payload.price
        tax_rate := payload.tax_rate, tax := tt.1, total := tt.2
        updated_at := none }
    if (find_one s payload.invoice_no).isSome then
      (.error .Conflict, s)
    else
      (.ok (serialize_doc payload.invoice_no d), insert_one s payload.invoice_no d)

/-- `get_invoice` (src/main.py lines 137-144). -/
def get_invoice (s : Store) (invoice_no : String) :
    Except ApiError SerializedInvoice × Store :=
  match find_one s invoice_no with
  | none => (.error .NotFound, s)
  | some d => (.ok (serialize_doc invoice_no d), s)

/-- `list_invoices` (src/main.py lines 130-135): every document of the
collection, serialized like `get`. -/
def list_invoices (s : Store) : List SerializedInvoice :=
  s.map (fun p => serialize_doc p.1 p.2)

/-- Lines 155-166 of src/main.py, as a document transformer: the
`update_data` dictionary (the payload fields that were set, plus the
recomputed `tax`/`total` and the fresh `updated_at` stamp, minus the
popped `invoice_no`) merged over the existing document.  Supplied fields
win; `tax`/`total` are recomputed unconditionally from the effective
`quantity`/`price`/`tax_rate`; the document's `invoice_no` field is
never touched because `invoice_no` is popped out of `update_data` before
either write path runs. -/
def merged_doc (existing : InvoiceDoc) (payload : InvoiceUpdate) (now : ℕ) : InvoiceDoc :=
  let q := payload.quantity.getD existing.quantity
  let p := payload.price.getD existing.price
  let tr := payload.tax_rate.getD existing.tax_rate
  let tt := compute_tax_and_total q p tr
  { invoice_no := existing.invoice_no
    customer := payload.customer.getD existing.customer
    item_name := payload.item_name.getD existing.item_name
    surat_jalan_no := payload.surat_jalan_no.getD existing.surat_jalan_no
    quantity := q, price := p, tax_rate := tr
    tax := tt.1, total := tt.2, updated_at := some now }

/-- Line 168 of src/main.py: `if new_invoice_no and new_invoice_no !=
current_invoice_no`.  The popped `invoice_no` triggers the rekey branch
exactly when it is truthy (a nonempty string) and differs from the
current key; `some n` is the rekey target in that case. -/
def rekey_target (current_invoice_no : String) (payload : InvoiceUpdate) : Option String :=
  match payload.invoice_no with
  | some n => if n ≠ "" ∧ n ≠ current_invoice_no then some n else none
  | none => none

/-- The key under which a successful update persists its result: the
rekey target when the rekey branch is taken, else the current key. -/
def updatedKey (current_invoice_no : String) (payload : InvoiceUpdate) : String :=
  (rekey_target current_invoice_no payload).getD current_invoice_no

/-- `update_invoice` (src/main.py lines 146-191).  Looks up the current
document (404 when absent), builds the merged document (see
`merged_doc`; every stored document has a `tax_rate`, so the code's
`existing.get("tax_rate", 11.0)` fallback is the stored value).  On the
rekey branch (see `rekey_target`): conflict-check the target (409),
insert the merged document under the new key, delete the old key.
Otherwise a regular `$set` at the current key, whose `matched_count`
cannot be 0 since the document was just found under that key.  Both
paths return the serialized persisted document. -/
def update_invoice (s : Store) (current_invoice_no : String)
    (payload : InvoiceUpdate) (now : ℕ) :
    Except ApiError SerializedInvoice × Store :=
  match find_one s current_invoice_no with
  | none => (.error .NotFound, s)
  | some existing =>
    let merged := merged_doc existing payload now
    match rekey_target current_invoice_no payload with
    | some n =>
      if (find_one s n).isSome then
        (.error .Conflict, s)
      else
        (.ok (serialize_doc n merged), delete_one (insert_one s n merged) current_invoice_no)
    | none =>
      (.ok (serialize_doc current_invoice_no merged), update_one s current_invoice_no merged)

/-- The body of `delete_invoice`'s 200 response:
`{"deleted": True, "invoice_no": invoice_no}`. -/
structure DeleteResponse where
  deleted : Bool
  invoice_no : String
deriving Repr, DecidableEq

/-- `delete_invoice` (src/main.py lines 193-200): `delete_one`, then 404
when `deleted_count = 0`. -/
def delete_invoice (s : Store) (invoice_no : String) :
    Except ApiError DeleteResponse × Store :=
  let deleted_count : ℕ := if (find_one s invoice_no).isSome then 1 else 0
  let s2 := delete_one s invoice_no
  if deleted_count = 0 then
    (.error .NotFound, s2)
  else
    (.ok { deleted := true, invoice_no := invoice_no }, s2)

/-- The spec's derived-field rule for a stored record:
`tax = round(quantity * price * tax_rate / 100, 2)` and
`total = round(quantity * price + tax, 2)`. -/
def derivedConsistent (d : InvoiceDoc) : Prop :=
  d.tax = round2 ((d.quantity : ℚ) * d.price * d.tax_rate / 100) ∧
  d.total = round2 ((d.quantity : ℚ) * d.price + d.tax)

instance (d : InvoiceDoc) : Decidable (derivedConsistent d) := by
  unfold derivedConsistent; infer_instance

/-! ### Concrete data used to exercise the operations -/

/-- The create payload of the spec's worked example. -/
def examplePayload : InvoiceCreate :=
  { invoice_no := "INV-1", customer := "Acme", item_name := "Widget"
    surat_jalan_no := "SJ-1", quantity := 10, price := 100, tax_rate := 11 }

/-- The document the example create persists: `tax = 110`, `total = 1110`. -/
def exampleDoc : InvoiceDoc :=
  { invoice_no := "INV-1", customer := "Acme", item_name := "Widget"
    surat_jalan_no := "SJ-1", quantity := 10, price := 100, tax_rate := 11
    tax := 110, total := 1110, updated_at := none }

/-- The example document after the `{quantity: 20}` update at time 0:
`tax = 220`, `total = 2220`. -/
def exampleDoc20 : InvoiceDoc :=
  { invoice_no := "INV-1", customer := "Acme", item_name := "Widget"
    surat_jalan_no := "SJ-1", quantity := 20, price := 100, tax_rate := 11
    tax := 220, total := 2220, updated_at := some 0 }

/-- The example document after a `{quantity: -5}` update at time 0: the
update path accepts the negative quantity and persists negative derived
values `tax = -55`, `total = -555`. -/
def negQuantityDoc : InvoiceDoc :=
  { invoice_no := "INV-1", customer := "Acme", item_name := "Widget"
    surat_jalan_no := "SJ-1", quantity := -5, price := 100, tax_rate := 11
    tax := -55, total := -555, updated_at := some 0 }

/-- A create request body supplying every field except `tax_rate`. -/
def createRequestNoTaxRate : InvoiceCreateRequest :=
  { invoice_no := some "INV-1", customer := some "Acme", item_name := some "Widget"
    surat_jalan_no := some "SJ-1", quantity := some 10, price := some 100
    tax_rate := none }

/-- A create payload whose `invoice_no` is the empty string. -/
def emptyKeyPayload : InvoiceCreate :=
  { invoice_no := "", customer := "Acme", item_name := "Widget"
    surat_jalan_no := "SJ-1", quantity := 1, price := 1, tax_rate := 11 }

/-- The document `emptyKeyPayload` persists under the key `""`. -/
def emptyKeyDoc : InvoiceDoc :=
  { invoice_no := "", customer := "Acme", item_name := "Widget"
    surat_jalan_no := "SJ-1", quantity := 1, price := 1, tax_rate := 11
    tax := 11/100, total := 111/100, updated_at := none }

/-- A second stored document, under the key `"INV-2"`. -/
def exampleDoc2 : InvoiceDoc :=
  { invoice_no := "INV-2", customer := "Globex", item_name := "Gadget"
    surat_jalan_no := "SJ-2", quantity := 1, price := 50, tax_rate := 11
    tax := 11/2, total := 111/2, updated_at := none }

/-- An update payload requesting a rekey to `"INV-2"` together with a
`customer` override. -/
def rekeyPayload : InvoiceUpdate := { invoice_no := some "INV-2", customer := some "Beta" }

/-- The document stored at key `"INV-2"` after rekeying the example
record away from `"INV-1"` at time 1: its `invoice_no` field still
reads `"INV-1"`. -/
def rekeyAwayDoc : InvoiceDoc :=
  { invoice_no := "INV-1", customer := "Acme", item_name := "Widget"
    surat_jalan_no := "SJ-1", quantity := 10, price := 100, tax_rate := 11
    tax := 110, total := 1110, updated_at := some 1 }

/-- The document stored at key `"INV-1"` after rekeying `rekeyAwayDoc`
back from `"INV-2"` to `"INV-1"` at time 2: its `invoice_no` field now
coincides with its storage key again. -/
def rekeyBackDoc : InvoiceDoc :=
  { invoice_no := "INV-1", customer := "Acme", item_name := "Widget"
    surat_jalan_no := "SJ-1", quantity := 10, price := 100, tax_rate := 11
    tax := 110, total := 1110, updated_at := some 2 }

/-- The document at key `"INV-1"` after an update at time 4 whose
payload requested `invoice_no = ""`: the empty string is falsy, so the
code takes the regular update path and only restamps the record in
place. -/
def emptyRekeyUpdatedDoc : InvoiceDoc :=
  { invoice_no := "INV-1", customer := "Acme", item_name := "Widget"
    surat_jalan_no := "SJ-1", quantity := 10, price := 100, tax_rate := 11
    tax := 110, total := 1110, updated_at := some 4 }

/-! ### Store lemmas -/

theorem find_one_insert_self (s : Store) (k : String) (d : InvoiceDoc)
    (h : find_one s k = none) : find_one (insert_one s k d) k = some d := by
  induction s with
  | nil => simp [find_one, insert_one]
  | cons hd tl ih =>
    simp only [find_one, insert_one, List.cons_append, List.find?_cons] at *
    by_cases hk : hd.1 = k
    · simp [hk] at h
    · simpa [hk] using ih (by simpa [hk] using h)

theorem find_one_insert_ne (s : Store) (k k2 : String) (d : InvoiceDoc)
    (h : k2 ≠ k) : find_one (insert_one s k d) k2 = find_one s k2 := by
  induction s with
  | nil => simp [find_one, insert_one, Ne.symm h]
  | cons hd tl ih =>
    simp only [find_one, insert_one, List.cons_append, List.find?_cons] at *
    by_cases hk : hd.1 = k2
    · simp [hk]
    · simpa [hk] using ih

theorem find_one_delete_self (s : Store) (k : String) :
    find_one (delete_one s k) k = none := by
  induction s with
  | nil => rfl
  | cons hd tl ih =>
    simp only [delete_one, List.filter_cons, find_one] at ih ⊢
    by_cases hk : hd.1 = k
    · rw [if_neg (by simp [hk])]
      exact ih
    · rw [if_pos (by simp [hk])]
      simp only [List.find?_cons, decide_eq_false hk]
      exact ih

theorem find_one_delete_ne (s : Store) (k k2 : String) (h : k2 ≠ k) :
    find_one (delete_one s k) k2 = find_one s k2 := by
  induction s with
  | nil => rfl
  | cons hd tl ih =>
    simp only [delete_one, List.filter_cons, find_one, List.find?_cons] at ih ⊢
    by_cases hk : hd.1 = k
    · have hne : ¬hd.1 = k2 := fun e => h (e ▸ hk)
      rw [if_neg (by simp [hk])]
      simp only [decide_eq_false hne]
      exact ih
    · rw [if_pos (by simp [hk])]
      by_cases hk2 : hd.1 = k2
      · simp [List.find?_cons, hk2]
      · simp only [List.find?_cons, decide_eq_false hk2]
        exact ih

theorem find_one_update_self (s : Store) (k : String) (d : InvoiceDoc)
    (h : (find_one s k).isSome) : find_one (update_one s k d) k = some d := by
  induction s with
  | nil => simp [find_one] at h
  | cons hd tl ih =>
    simp only [find_one, update_one, List.map_cons, List.find?_cons] at *
    by_cases hk : hd.1 = k
    · simp [hk]
    · simpa [hk] using ih (by simpa [hk] using h)

theorem delete_one_of_absent (s : Store) (k : String)
    (h : find_one s k = none) : delete_one s k = s := by
  induction s with
  | nil => simp [delete_one]
  | cons hd tl ih =>
    simp only [find_one, delete_one, List.filter_cons, List.find?_cons] at *
    by_cases hk : hd.1 = k
    · simp [hk] at h
    · simpa [hk] using ih (by simpa [hk] using h)

/-! ### Derived-field lemmas -/

/-- The code's `round(subtotal * (tax_rate/100.0), 2)` equals the spec's
`round(quantity * price * tax_rate / 100, 2)`. -/
theorem compute_tax_eq (q : ℤ) (p tr : ℚ) :
    (compute_tax_and_total q p tr).1 = round2 ((q : ℚ) * p * tr / 100) := by
  show round2 ((q : ℚ) * p * (tr / 100)) = round2 ((q : ℚ) * p * tr / 100)
  congr 1
  ring

/-- The computed total is `round(subtotal + tax, 2)`. -/
theorem compute_total_eq (q : ℤ) (p tr : ℚ) :
    (compute_tax_and_total q p tr).2 =
      round2 ((q : ℚ) * p + (compute_tax_and_total q p tr).1) := rfl

/-- Every document an update writes has consistent derived fields. -/
theorem merged_doc_consistent (ex : InvoiceDoc) (pl : InvoiceUpdate) (now : ℕ) :
    derivedConsistent (merged_doc ex pl now) := by
  unfold derivedConsistent merged_doc
  exact ⟨compute_tax_eq _ _ _, compute_total_eq _ _ _⟩

/-- Rounding half-to-even never turns a non-negative value negative. -/
theorem roundHalfEven_nonneg (q : ℚ) (h : 0 ≤ q) : 0 ≤ roundHalfEven q := by
  simp only [roundHalfEven]
  have hf : (0:ℤ) ≤ ⌊q⌋ := Int.le_floor.mpr (by exact_mod_cast h)
  split
  · exact hf
  · split
    · omega
    · split
      · exact hf
      · omega

/-- `round(x, 2)` of a non-negative value is non-negative. -/
theorem round2_nonneg (q : ℚ) (h : 0 ≤ q) : 0 ≤ round2 q := by
  unfold round2
  have h1 : (0:ℚ) ≤ q * 100 := by positivity
  have h2 := roundHalfEven_nonneg (q * 100) h1
  have h3 : (0:ℚ) ≤ (roundHalfEven (q * 100) : ℚ) := by exact_mod_cast h2
  positivity

/-- Non-negative inputs give non-negative derived fields, so the
`Invoice` schema bounds on `tax` and `total` never fire on their own. -/
theorem compute_nonneg (q : ℤ) (p tr : ℚ) (hq : 0 ≤ q) (hp : 0 ≤ p) (ht : 0 ≤ tr) :
    0 ≤ (compute_tax_and_total q p tr).1 ∧ 0 ≤ (compute_tax_and_total q p tr).2 := by
  have hq2 : (0:ℚ) ≤ (q:ℚ) := by exact_mod_cast hq
  have h1 : (0:ℚ) ≤ (q:ℚ) * p * (tr / 100) := by positivity
  have htax : 0 ≤ (compute_tax_and_total q p tr).1 := round2_nonneg _ h1
  refine ⟨htax, round2_nonneg _ ?_⟩
  exact add_nonneg (by positivity) htax

/-! ### Handler path lemmas -/

/-- A rekey target is the payload's `invoice_no`, nonempty and distinct
from the current key. -/
theorem rekey_target_spec (k : String) (pl : InvoiceUpdate) (n : String)
    (h : rekey_target k pl = some n) :
    pl.invoice_no = some n ∧ n ≠ "" ∧ n ≠ k := by
  unfold rekey_target at h
  split at h
  · rename_i m heq
    split at h
    · rename_i hcond
      cases h
      exact ⟨heq, hcond⟩
    · cases h
  · cases h

/-- A payload whose `invoice_no` is a nonempty string distinct from the
current key triggers the rekey branch. -/
theorem rekey_target_eq_some (k n : String) (pl : InvoiceUpdate)
    (hn : pl.invoice_no = some n) (h1 : n ≠ "") (h2 : n ≠ k) :
    rekey_target k pl = some n := by
  simp [rekey_target, hn, h1, h2]

/-- Unfolding `update_invoice` on the successful rekey path. -/
theorem update_rekey_eq (s : Store) (k n : String) (pl : InvoiceUpdate) (now : ℕ)
    (ex : InvoiceDoc) (hex : find_one s k = some ex)
    (hn : rekey_target k pl = some n) (hfresh : find_one s n = none) :
    update_invoice s k pl now =
      (.ok (serialize_doc n (merged_doc ex pl now)),
        delete_one (insert_one s n (merged_doc ex pl now)) k) := by
  simp [update_invoice, hex, hn, hfresh]

/-- Unfolding `update_invoice` on the rekey-conflict path. -/
theorem update_rekey_conflict_eq (s : Store) (k n : String) (pl : InvoiceUpdate)
    (now : ℕ) (ex : InvoiceDoc) (hex : find_one s k = some ex)
    (hn : rekey_target k pl = some n) (htaken : (find_one s n).isSome) :
    update_invoice s k pl now = (.error .Conflict, s) := by
  simp [update_invoice, hex, hn, htaken]

/-- Unfolding `update_invoice` on the regular (non-rekey) path. -/
theorem update_regular_eq (s : Store) (k : String) (pl : InvoiceUpdate) (now : ℕ)
    (ex : InvoiceDoc) (hex : find_one s k = some ex)
    (hn : rekey_target k pl = none) :
    update_invoice s k pl now =
      (.ok (serialize_doc k (merged_doc ex pl now)),
        update_one s k (merged_doc ex pl now)) := by
  simp [update_invoice, hex, hn]

/-- Every successful create persists a document with consistent derived
fields under the payload's `invoice_no`. -/
theorem create_persists_consistent (s : Store) (pl : InvoiceCreate)
    (r : SerializedInvoice) (s1 : Store)
    (h : create_invoice s pl = (.ok r, s1)) :
    ∃ d, find_one s1 pl.invoice_no = some d ∧ derivedConsistent d := by
  simp only [create_invoice] at h
  split at h
  · simp at h
  · split at h
    · simp at h
    · rename_i hconf
      simp only [Prod.mk.injEq, Except.ok.injEq] at h
      obtain ⟨h1, h2⟩ := h
      subst h2
      refine ⟨_, find_one_insert_self _ _ _ (Option.not_isSome_iff_eq_none.mp hconf), ?_⟩
      exact ⟨compute_tax_eq _ _ _, compute_total_eq _ _ _⟩

/-- Every successful update persists a document with consistent derived
fields under the key it writes. -/
theorem update_persists_consistent (s : Store) (k : String) (pl : InvoiceUpdate)
    (now : ℕ) (r : SerializedInvoice) (s1 : Store)
    (h : update_invoice s k pl now = (.ok r, s1)) :
    ∃ d, find_one s1 (updatedKey k pl) = some d ∧ derivedConsistent d := by
  simp only [update_invoice] at h
  split at h
  · simp at h
  · rename_i ex hex
    split at h
    · rename_i n hn
      split at h
      · simp at h
      · rename_i hfree
        simp only [Prod.mk.injEq, Except.ok.injEq] at h
        obtain ⟨h1, h2⟩ := h
        subst h2
        have hspec := rekey_target_spec k pl n hn
        have hfresh : find_one s n = none := Option.not_isSome_iff_eq_none.mp hfree
        refine ⟨merged_doc ex pl now, ?_, merged_doc_consistent _ _ _⟩
        have hku : updatedKey k pl = n := by simp [updatedKey, hn]
        rw [hku, find_one_delete_ne _ _ _ hspec.2.2, find_one_insert_self _ _ _ hfresh]
    · rename_i hn
      simp only [Prod.mk.injEq, Except.ok.injEq] at h
      obtain ⟨h1, h2⟩ := h
      subst h2
      have hku : updatedKey k pl = k := by simp [updatedKey, hn]
      refine ⟨merged_doc ex pl now, ?_, merged_doc_consistent _ _ _⟩
      rw [hku]
      exact find_one_update_self _ _ _ (by simp [hex])

/-! ### Claim theorems -/

/-- C1: every invoice persisted by create or update has
`tax = round(quantity * price * tax_rate / 100, 2)` and
`total = round(quantity * price + tax, 2)` computed from the effective
`quantity`, `price`, `tax_rate` of that record; in particular the
example create (`quantity` 10, `price` 100, `tax_rate` 11) yields
`tax = 110` and `total = 1110`, and the follow-up `{quantity: 20}`
update yields `tax = 220` and `total = 2220`. -/
theorem create_update_derived_fields :
    (∀ (s : Store) (pl : InvoiceCreate) (r : SerializedInvoice) (s1 : Store),
        create_invoice s pl = (.ok r, s1) →
        ∃ d, find_one s1 pl.invoice_no = some d ∧ derivedConsistent d) ∧
    (∀ (s : Store) (k : String) (pl : InvoiceUpdate) (now : ℕ)
        (r : SerializedInvoice) (s1 : Store),
        update_invoice s k pl now = (.ok r, s1) →
        ∃ d, find_one s1 (updatedKey k pl) = some d ∧ derivedConsistent d) ∧
    (create_invoice [] examplePayload =
        (.ok (serialize_doc "INV-1" exampleDoc), [("INV-1", exampleDoc)]) ∧
      (serialize_doc "INV-1" exampleDoc).tax = 110 ∧
      (serialize_doc "INV-1" exampleDoc).total = 1110 ∧
      update_invoice [("INV-1", exampleDoc)] "INV-1" { quantity := some 20 } 0 =
        (.ok (serialize_doc "INV-1" exampleDoc20), [("INV-1", exampleDoc20)]) ∧
      (serialize_doc "INV-1" exampleDoc20).tax = 220 ∧
      (serialize_doc "INV-1" exampleDoc20).total = 2220) := by
  refine ⟨create_persists_consistent, update_persists_consistent, ?_, ?_, ?_, ?_, ?_, ?_⟩
  · norm_num [create_invoice, compute_tax_and_total, round2, roundHalfEven,
      find_one, insert_one, examplePayload, exampleDoc]
  · simp [serialize_doc, exampleDoc]
  · simp [serialize_doc, exampleDoc]
  · norm_num [update_invoice, merged_doc, rekey_target, compute_tax_and_total,
      round2, roundHalfEven, find_one, update_one, exampleDoc, exampleDoc20]
  · simp [serialize_doc, exampleDoc20]
  · simp [serialize_doc, exampleDoc20]

/-- Witness for C1: the create part applied to the example payload on
the empty store. -/
theorem create_update_derived_fields_witness :
    ∃ d, find_one [("INV-1", exampleDoc)] "INV-1" = some d ∧ derivedConsistent d :=
  create_update_derived_fields.1 [] examplePayload (serialize_doc "INV-1" exampleDoc)
    [("INV-1", exampleDoc)]
    (by norm_num [create_invoice, compute_tax_and_total, round2, roundHalfEven,
      find_one, insert_one, examplePayload, exampleDoc])

/-- C2 (code bug): the update path performs no bound checks
(`InvoiceUpdate` has no `ge=0` constraints and the handler writes
`update_data` directly, bypassing the `Invoice` schema), so an update
with `quantity = -5` on the example record persists a document with
`quantity = -5`, `tax = -55` and `total = -555`, violating the
non-negativity the `Invoice` schema declares. -/
theorem update_persists_negative_values :
    update_invoice [("INV-1", exampleDoc)] "INV-1" { quantity := some (-5) } 0 =
      (.ok (serialize_doc "INV-1" negQuantityDoc), [("INV-1", negQuantityDoc)]) ∧
    find_one [("INV-1", negQuantityDoc)] "INV-1" = some negQuantityDoc ∧
    negQuantityDoc.quantity < 0 ∧ negQuantityDoc.tax < 0 ∧ negQuantityDoc.total < 0 := by
  refine ⟨?_, rfl, ?_, ?_, ?_⟩
  · norm_num [update_invoice, merged_doc, rekey_target, compute_tax_and_total,
      round2, roundHalfEven, find_one, update_one, exampleDoc, negQuantityDoc]
  · norm_num [negQuantityDoc]
  · norm_num [negQuantityDoc]
  · norm_num [negQuantityDoc]

/-- C3 counterexample: a create request that supplies every field except
`tax_rate` does not pass `InvoiceCreate` validation, so no record is
created at all (the claim says it succeeds with `tax_rate = 11`). -/
theorem create_without_tax_rate_rejected_cex :
    parseInvoiceCreate createRequestNoTaxRate = none := rfl

/-- C3 (amended): `tax_rate` is a required field of the create request
model, so every create request omitting it is rejected by validation and
creates no record. -/
theorem create_requires_tax_rate (r : InvoiceCreateRequest) (h : r.tax_rate = none) :
    parseInvoiceCreate r = none := by
  obtain ⟨i, c, it, sj, q, p, t⟩ := r
  simp only at h
  subst h
  cases i <;> cases c <;> cases it <;> cases sj <;> cases q <;> cases p <;> rfl

/-- Witness for C3's amended theorem, at the concrete request. -/
theorem create_requires_tax_rate_witness :
    createRequestNoTaxRate.tax_rate = none ∧
      parseInvoiceCreate createRequestNoTaxRate = none :=
  ⟨rfl, create_requires_tax_rate createRequestNoTaxRate rfl⟩

/-- C4 counterexample: an update requesting the new `invoice_no` `""`
on the record at `"INV-1"` — with `""` different from the current key
and absent from the store, so the claim demands a record at key `""`
and the removal of `"INV-1"` — instead takes the regular update path
(the empty string is falsy in the line-168 truthiness check): no record
appears at `""` and the old key still resolves. -/
theorem rekey_to_fresh_empty_key_cex :
    ("" : String) ≠ "INV-1" ∧
    find_one [("INV-1", exampleDoc)] "" = none ∧
    update_invoice [("INV-1", exampleDoc)] "INV-1" { invoice_no := some "" } 4 =
      (.ok (serialize_doc "INV-1" emptyRekeyUpdatedDoc), [("INV-1", emptyRekeyUpdatedDoc)]) ∧
    find_one [("INV-1", emptyRekeyUpdatedDoc)] "" = none ∧
    find_one [("INV-1", emptyRekeyUpdatedDoc)] "INV-1" = some emptyRekeyUpdatedDoc := by
  refine ⟨by decide, rfl, ?_, rfl, rfl⟩
  norm_num [update_invoice, merged_doc, rekey_target, compute_tax_and_total,
    round2, roundHalfEven, find_one, update_one, exampleDoc, emptyRekeyUpdatedDoc]

/-- C4 (amended): an update whose payload rekeys to a fresh `invoice_no`
that is a nonempty string (an empty-string target is falsy and takes the
regular update path instead) persists at the new key the existing record
merged with the update's fields (update wins, derived fields recomputed,
`updated_at` stamped), removes the old key, and returns the record at
the new key. -/
theorem rekey_update_moves_record (s : Store) (cur n : String) (pl : InvoiceUpdate)
    (now : ℕ) (ex : InvoiceDoc)
    (hfound : find_one s cur = some ex)
    (hn : pl.invoice_no = some n) (hne : n ≠ "") (hnc : n ≠ cur)
    (hfresh : find_one s n = none) :
    ∃ s2 d, update_invoice s cur pl now = (.ok (serialize_doc n d), s2) ∧
      find_one s2 n = some d ∧
      find_one s2 cur = none ∧
      d.customer = pl.customer.getD ex.customer ∧
      d.item_name = pl.item_name.getD ex.item_name ∧
      d.surat_jalan_no = pl.surat_jalan_no.getD ex.surat_jalan_no ∧
      d.quantity = pl.quantity.getD ex.quantity ∧
      d.price = pl.price.getD ex.price ∧
      d.tax_rate = pl.tax_rate.getD ex.tax_rate ∧
      d.tax = (compute_tax_and_total d.quantity d.price d.tax_rate).1 ∧
      d.total = (compute_tax_and_total d.quantity d.price d.tax_rate).2 ∧
      d.updated_at = some now := by
  have hrt := rekey_target_eq_some cur n pl hn hne hnc
  refine ⟨_, merged_doc ex pl now, update_rekey_eq s cur n pl now ex hfound hrt hfresh,
    ?_, ?_, rfl, rfl, rfl, rfl, rfl, rfl, rfl, rfl, rfl⟩
  · rw [find_one_delete_ne _ _ _ hnc, find_one_insert_self _ _ _ hfresh]
  · exact find_one_delete_self _ _

/-- Witness for C4: rekeying the example record from `"INV-1"` to
`"INV-2"` with a `customer` override. -/
theorem rekey_update_moves_record_witness :
    ∃ s2 d, update_invoice [("INV-1", exampleDoc)] "INV-1" rekeyPayload 7 =
        (.ok (serialize_doc "INV-2" d), s2) ∧
      find_one s2 "INV-2" = some d ∧
      find_one s2 "INV-1" = none ∧
      d.customer = rekeyPayload.customer.getD exampleDoc.customer ∧
      d.item_name = rekeyPayload.item_name.getD exampleDoc.item_name ∧
      d.surat_jalan_no = rekeyPayload.surat_jalan_no.getD exampleDoc.surat_jalan_no ∧
      d.quantity = rekeyPayload.quantity.getD exampleDoc.quantity ∧
      d.price = rekeyPayload.price.getD exampleDoc.price ∧
      d.tax_rate = rekeyPayload.tax_rate.getD exampleDoc.tax_rate ∧
      d.tax = (compute_tax_and_total d.quantity d.price d.tax_rate).1 ∧
      d.total = (compute_tax_and_total d.quantity d.price d.tax_rate).2 ∧
      d.updated_at = some 7 :=
  rekey_update_moves_record [("INV-1", exampleDoc)] "INV-1" "INV-2" rekeyPayload 7
    exampleDoc rfl rfl (by decide) (by decide) rfl

/-- C5 counterexample: with a record stored under the empty-string key
(creatable, see C9) and an update on `"INV-1"` requesting the occupied
`invoice_no` `""`, the claim demands Conflict with the store unchanged;
the code's truthiness check never treats `""` as a rekey, performs a
regular update, and modifies the record at the current key
(`updated_at` restamped, so the stored document changed). -/
theorem rekey_to_existing_empty_key_cex :
    (find_one [("", emptyKeyDoc), ("INV-1", exampleDoc)] "").isSome ∧
    ("" : String) ≠ "INV-1" ∧
    update_invoice [("", emptyKeyDoc), ("INV-1", exampleDoc)] "INV-1"
        { invoice_no := some "" } 4 =
      (.ok (serialize_doc "INV-1" emptyRekeyUpdatedDoc),
        [("", emptyKeyDoc), ("INV-1", emptyRekeyUpdatedDoc)]) ∧
    emptyRekeyUpdatedDoc ≠ exampleDoc := by
  refine ⟨rfl, by decide, ?_, by decide⟩
  norm_num +decide [update_invoice, merged_doc, rekey_target, compute_tax_and_total,
    round2, roundHalfEven, find_one, update_one, List.find?_cons,
    exampleDoc, emptyKeyDoc, emptyRekeyUpdatedDoc]

/-- C5 (amended): an update that rekeys to a nonempty `invoice_no`
already present in the store fails with Conflict, and the store is
returned unchanged with the original record still at the old key; a
requested `invoice_no` of `""` is never treated as a rekey, even when
`""` is an occupied key, and instead updates the current record in
place. -/
theorem rekey_conflict_leaves_store_unchanged (s : Store) (cur n : String)
    (pl : InvoiceUpdate) (now : ℕ) (ex : InvoiceDoc)
    (hfound : find_one s cur = some ex)
    (hn : pl.invoice_no = some n) (hne : n ≠ "") (hnc : n ≠ cur)
    (htaken : (find_one s n).isSome) :
    update_invoice s cur pl now = (.error .Conflict, s) ∧
      find_one s cur = some ex :=
  ⟨update_rekey_conflict_eq s cur n pl now ex hfound
      (rekey_target_eq_some cur n pl hn hne hnc) htaken,
    hfound⟩

/-- Witness for C5: rekeying `"INV-1"` onto the occupied key `"INV-2"`. -/
theorem rekey_conflict_witness :
    update_invoice [("INV-1", exampleDoc), ("INV-2", exampleDoc2)] "INV-1" rekeyPayload 7 =
      (.error .Conflict, [("INV-1", exampleDoc), ("INV-2", exampleDoc2)]) ∧
    find_one [("INV-1", exampleDoc), ("INV-2", exampleDoc2)] "INV-1" = some exampleDoc :=
  rekey_conflict_leaves_store_unchanged _ "INV-1" "INV-2" rekeyPayload 7 exampleDoc
    rfl rfl (by decide) (by decide) rfl

/-- C6: on a record whose stored `tax`/`total` satisfy the derivation
rule (as every record the API persists does), an update supplying only
`customer` recomputes `tax`/`total` to exactly their pre-update values. -/
theorem customer_only_update_preserves_derived (s : Store) (cur c : String) (now : ℕ)
    (ex : InvoiceDoc) (hfound : find_one s cur = some ex)
    (hcons : derivedConsistent ex) :
    ∃ s2 d, update_invoice s cur { customer := some c } now =
        (.ok (serialize_doc cur d), s2) ∧
      find_one s2 cur = some d ∧
      d.tax = ex.tax ∧ d.total = ex.total ∧ d.customer = c := by
  have htax : (merged_doc ex { customer := some c } now).tax = ex.tax := by
    rw [show (merged_doc ex { customer := some c } now).tax =
        (compute_tax_and_total ex.quantity ex.price ex.tax_rate).1 from rfl,
      compute_tax_eq]
    exact hcons.1.symm
  have htotal : (merged_doc ex { customer := some c } now).total = ex.total := by
    rw [show (merged_doc ex { customer := some c } now).total =
        (compute_tax_and_total ex.quantity ex.price ex.tax_rate).2 from rfl,
      compute_total_eq, compute_tax_eq]
    rw [← hcons.1]
    exact hcons.2.symm
  exact ⟨_, merged_doc ex { customer := some c } now,
    update_regular_eq s cur _ now ex hfound rfl,
    find_one_update_self _ _ _ (by simp [hfound]), htax, htotal, rfl⟩

/-- Witness for C6: a customer-only update of the example record keeps
`tax = 110` and `total = 1110`. -/
theorem customer_only_update_witness :
    ∃ s2 d, update_invoice [("INV-1", exampleDoc)] "INV-1" { customer := some "NewCo" } 9 =
        (.ok (serialize_doc "INV-1" d), s2) ∧
      find_one s2 "INV-1" = some d ∧
      d.tax = exampleDoc.tax ∧ d.total = exampleDoc.total ∧ d.customer = "NewCo" :=
  customer_only_update_preserves_derived _ "INV-1" "NewCo" 9 exampleDoc rfl
    (by norm_num [derivedConsistent, round2, roundHalfEven, exampleDoc])

/-- C7: `get`, `update` and `delete` on an `invoice_no` absent from the
store each fail with NotFound and return the store unchanged. -/
theorem missing_key_not_found (s : Store) (k : String) (pl : InvoiceUpdate) (now : ℕ)
    (h : find_one s k = none) :
    get_invoice s k = (.error .NotFound, s) ∧
    update_invoice s k pl now = (.error .NotFound, s) ∧
    delete_invoice s k = (.error .NotFound, s) := by
  refine ⟨?_, ?_, ?_⟩
  · simp [get_invoice, h]
  · simp [update_invoice, h]
  · simp [delete_invoice, h, delete_one_of_absent s k h]

/-- Witness for C7, at the absent key `"INV-404"`. -/
theorem missing_key_not_found_witness :
    get_invoice [("INV-1", exampleDoc)] "INV-404" =
      (.error .NotFound, [("INV-1", exampleDoc)]) ∧
    update_invoice [("INV-1", exampleDoc)] "INV-404" {} 0 =
      (.error .NotFound, [("INV-1", exampleDoc)]) ∧
    delete_invoice [("INV-1", exampleDoc)] "INV-404" =
      (.error .NotFound, [("INV-1", exampleDoc)]) :=
  missing_key_not_found _ "INV-404" {} 0 rfl

/-- C8: a create whose `invoice_no` is already present (with a payload
that passes the schema bounds, as every actually creatable payload
does) fails with Conflict and leaves the existing record unchanged. -/
theorem duplicate_create_conflict (s : Store) (pl : InvoiceCreate) (ex : InvoiceDoc)
    (hq : 0 ≤ pl.quantity) (hp : 0 ≤ pl.price) (ht : 0 ≤ pl.tax_rate)
    (hfound : find_one s pl.invoice_no = some ex) :
    create_invoice s pl = (.error .Conflict, s) ∧
      find_one s pl.invoice_no = some ex := by
  have hcomp := compute_nonneg pl.quantity pl.price pl.tax_rate hq hp ht
  refine ⟨?_, hfound⟩
  simp only [create_invoice]
  rw [if_neg (by push_neg; exact ⟨hq, hp, ht, hcomp.1, hcomp.2⟩), if_pos (by simp [hfound])]

/-- Witness for C8: re-creating the example payload over its own record. -/
theorem duplicate_create_conflict_witness :
    create_invoice [("INV-1", exampleDoc)] examplePayload =
      (.error .Conflict, [("INV-1", exampleDoc)]) ∧
    find_one [("INV-1", exampleDoc)] "INV-1" = some exampleDoc :=
  duplicate_create_conflict _ examplePayload exampleDoc (by decide)
    (by norm_num [examplePayload]) (by norm_num [examplePayload]) rfl

/-- C9 counterexample: creating a record whose `invoice_no` is the empty
string succeeds, and its output representation keeps the raw `_id`
entry and gains no `id` field, because `serialize_doc` tests the key
for truthiness and the empty string is falsy. -/
theorem serialize_empty_key_cex :
    create_invoice [] emptyKeyPayload =
      (.ok (serialize_doc "" emptyKeyDoc), [("", emptyKeyDoc)]) ∧
    (serialize_doc "" emptyKeyDoc).raw_id = some "" ∧
    (serialize_doc "" emptyKeyDoc).id = none := by
  refine ⟨?_, ?_, ?_⟩
  · norm_num [create_invoice, compute_tax_and_total, round2, roundHalfEven,
      find_one, insert_one, emptyKeyPayload, emptyKeyDoc]
  · simp [serialize_doc]
  · simp [serialize_doc]

/-- C9 (amended): for every nonempty storage key the output surfaces the
key as the string `id` field and removes the raw key field; only the
empty-string key is left as a raw `_id` with no `id`. -/
theorem serialize_hides_raw_key (k : String) (d : InvoiceDoc) (h : k ≠ "") :
    (serialize_doc k d).id = some k ∧ (serialize_doc k d).raw_id = none := by
  simp [serialize_doc, h]

/-- Witness for C9's amended theorem, at the key `"INV-1"`. -/
theorem serialize_hides_raw_key_witness :
    (serialize_doc "INV-1" exampleDoc).id = some "INV-1" ∧
    (serialize_doc "INV-1" exampleDoc).raw_id = none :=
  serialize_hides_raw_key "INV-1" exampleDoc (by decide)

/-- C10 counterexample: after rekeying the example record from
`"INV-1"` to `"INV-2"` and then back to `"INV-1"`, the second rekey is
a successful rekeying update whose stored `invoice_no` field equals the
new storage key and the serialized `id` — so the claimed divergence
does not hold for every successful rekey. -/
theorem rekey_no_divergence_cex :
    update_invoice [("INV-1", exampleDoc)] "INV-1" { invoice_no := some "INV-2" } 1 =
      (.ok (serialize_doc "INV-2" rekeyAwayDoc), [("INV-2", rekeyAwayDoc)]) ∧
    update_invoice [("INV-2", rekeyAwayDoc)] "INV-2" { invoice_no := some "INV-1" } 2 =
      (.ok (serialize_doc "INV-1" rekeyBackDoc), [("INV-1", rekeyBackDoc)]) ∧
    rekeyBackDoc.invoice_no = "INV-1" ∧
    (serialize_doc "INV-1" rekeyBackDoc).id = some rekeyBackDoc.invoice_no := by
  refine ⟨?_, ?_, rfl, ?_⟩
  · norm_num [update_invoice, merged_doc, rekey_target, compute_tax_and_total,
      round2, roundHalfEven, find_one, insert_one, delete_one, update_one,
      exampleDoc, rekeyAwayDoc]
    simp +decide [serialize_doc]
  · norm_num [update_invoice, merged_doc, rekey_target, compute_tax_and_total,
      round2, roundHalfEven, find_one, insert_one, delete_one, update_one,
      rekeyAwayDoc, rekeyBackDoc]
    simp +decide [serialize_doc]
  · simp [serialize_doc, rekeyBackDoc]

/-- C10 (amended): every successful rekey keeps the existing record's
`invoice_no` field value (the requested new `invoice_no` is applied only
to the storage key) — first conjunct, for every existing record; and
when the existing record's `invoice_no` equals the current key — as for
every record that has never been rekeyed — the stored `invoice_no`
field moreover differs from the new storage key and from the serialized
`id` — second conjunct. -/
theorem rekey_keeps_old_invoice_no_field :
    (∀ (s : Store) (cur n : String) (pl : InvoiceUpdate) (now : ℕ) (ex : InvoiceDoc),
        find_one s cur = some ex → pl.invoice_no = some n → n ≠ "" → n ≠ cur →
        find_one s n = none →
        ∃ s2 d, update_invoice s cur pl now = (.ok (serialize_doc n d), s2) ∧
          find_one s2 n = some d ∧ d.invoice_no = ex.invoice_no) ∧
    (∀ (s : Store) (cur n : String) (pl : InvoiceUpdate) (now : ℕ) (ex : InvoiceDoc),
        find_one s cur = some ex → pl.invoice_no = some n → n ≠ "" → n ≠ cur →
        find_one s n = none → ex.invoice_no = cur →
        ∃ s2 d, update_invoice s cur pl now = (.ok (serialize_doc n d), s2) ∧
          find_one s2 n = some d ∧
          d.invoice_no = ex.invoice_no ∧
          d.invoice_no ≠ n ∧
          (serialize_doc n d).id = some n ∧
          some d.invoice_no ≠ (serialize_doc n d).id) := by
  constructor
  · intro s cur n pl now ex hfound hn hne hnc hfresh
    have hrt := rekey_target_eq_some cur n pl hn hne hnc
    refine ⟨_, merged_doc ex pl now,
      update_rekey_eq s cur n pl now ex hfound hrt hfresh, ?_, rfl⟩
    rw [find_one_delete_ne _ _ _ hnc, find_one_insert_self _ _ _ hfresh]
  · intro s cur n pl now ex hfound hn hne hnc hfresh hkey
    have hrt := rekey_target_eq_some cur n pl hn hne hnc
    have hdne : (merged_doc ex pl now).invoice_no ≠ n := by
      show ex.invoice_no ≠ n
      rw [hkey]
      exact fun e => hnc e.symm
    have hid : (serialize_doc n (merged_doc ex pl now)).id = some n := by
      simp [serialize_doc, hne]
    refine ⟨_, merged_doc ex pl now,
      update_rekey_eq s cur n pl now ex hfound hrt hfresh, ?_, rfl, hdne, hid, ?_⟩
    · rw [find_one_delete_ne _ _ _ hnc, find_one_insert_self _ _ _ hfresh]
    · rw [hid]
      intro hcontra
      exact hdne (Option.some.inj hcontra)

/-- Witness for C10's amended theorem: the retention part applied to the
already-rekeyed record `rekeyAwayDoc` (whose `invoice_no` field differs
from its storage key), and the divergence part applied to the example
(never rekeyed) record. -/
theorem rekey_keeps_old_invoice_no_witness :
    (∃ s2 d, update_invoice [("INV-2", rekeyAwayDoc)] "INV-2"
          { invoice_no := some "INV-3" } 8 = (.ok (serialize_doc "INV-3" d), s2) ∧
        find_one s2 "INV-3" = some d ∧ d.invoice_no = rekeyAwayDoc.invoice_no) ∧
    (∃ s2 d, update_invoice [("INV-1", exampleDoc)] "INV-1" rekeyPayload 3 =
          (.ok (serialize_doc "INV-2" d), s2) ∧
        find_one s2 "INV-2" = some d ∧
        d.invoice_no = exampleDoc.invoice_no ∧
        d.invoice_no ≠ "INV-2" ∧
        (serialize_doc "INV-2" d).id = some "INV-2" ∧
        some d.invoice_no ≠ (serialize_doc "INV-2" d).id) :=
  ⟨rekey_keeps_old_invoice_no_field.1 _ "INV-2" "INV-3" { invoice_no := some "INV-3" } 8
      rekeyAwayDoc rfl rfl (by decide) (by decide) rfl,
    rekey_keeps_old_invoice_no_field.2 _ "INV-1" "INV-2" rekeyPayload 3 exampleDoc
      rfl rfl (by decide) (by decide) rfl rfl⟩

end InvoiceBackend
